import Mathlib

/-!
Verification development for pymp3-ytdl (src/pymp3_ytdl.py).

The script batch-downloads audio from a list of URLs, converts each to MP3,
writes title/artist ID3 tags and embeds thumbnail cover art.  This file is a
shallow embedding of that script: every external effect (yt-dlp extraction,
the mutagen tag library, the requests HTTP client, Pillow image conversion,
the filesystem) is represented by an explicit oracle/environment value, and
each Python function is translated into a Lean function over those oracles.
Log output is modelled as an explicit event trace.
-/

set_option maxHeartbeats 1000000

namespace PyMp3Ytdl

/-! ## Configuration constants (pymp3_ytdl.py lines 42-55) -/

def OUTPUT_DIRECTORY_NAME : String := "downloaded_music"

def PERFORM_CUSTOM_RENAMING : Bool := false

def SANITIZE_WITH_RESTRICTED_MODE : Bool := false

/-- Does the path start with a separator (is absolute)? -/
def headIsSlash (s : String) : Bool :=
  match s.toList with
  | '/' :: _ => true
  | _ => false

/-- Does the path end with a separator? -/
def lastIsSlash (s : String) : Bool :=
  match s.toList.reverse with
  | '/' :: _ => true
  | _ => false

/-- `os.path.join` for the POSIX paths this script builds. -/
def ospathJoin (a b : String) : String :=
  if headIsSlash b then b
  else if a = "" then b
  else if lastIsSlash a then a ++ b
  else a ++ "/" ++ b

/-! ## Observable events: log lines and filesystem effects -/

/-- One observable event of a run: a log record (the `[i/n] Processing URL`
progress line is kept structured, carrying its data) or a filesystem effect
(`os.makedirs` of the output directory). -/
inductive Ev where
  | logProgress (i n : Nat) (url : String)
  | logInfo (msg : String)
  | logDebug (msg : String)
  | logWarning (msg : String)
  | logError (msg : String)
  | mkdirOut (dir : String)
deriving DecidableEq

/-- The text a log event is rendered as; the progress event renders exactly as
`logger.info` formats it in the loop (line 263). -/
def renderEv : Ev → String
  | .logProgress i n url => s!"[{i}/{n}] Processing URL: {url}"
  | .logInfo m => m
  | .logDebug m => m
  | .logWarning m => m
  | .logError m => m
  | .mkdirOut d => s!"makedirs {d}"

/-- Is this the per-URL progress log line? -/
def Ev.isProgress : Ev → Bool
  | .logProgress .. => true
  | _ => false

/-- A plain (non-progress, non-filesystem) log record. -/
def Ev.isPlain : Ev → Bool
  | .logInfo _ => true
  | .logDebug _ => true
  | .logWarning _ => true
  | .logError _ => true
  | .logProgress .. => false
  | .mkdirOut _ => false

/-- All events of a list are plain log records. -/
def plainEvs (l : List Ev) : Bool := l.all Ev.isPlain

/-! ## read_url_list (lines 106-122) -/

/-- A Python whitespace character, as `str.strip()` removes them:
space, tab, newline, carriage return, vertical tab, form feed. -/
def isPySpace (c : Char) : Bool :=
  c = ' ' || c = '\t' || c = '\n' || c = '\r' || c.toNat = 11 || c.toNat = 12

/-- Python `str.strip()`: drop leading and trailing whitespace. -/
def pyStrip (s : String) : String :=
  ⟨((s.toList.dropWhile isPySpace).reverse.dropWhile isPySpace).reverse⟩

/-- Python `str.lower()` (ASCII case, which is all the script compares). -/
def pyLower (s : String) : String :=
  ⟨s.toList.map Char.toLower⟩

/-- The state of the URL-list file named on the command line:
whether `os.path.isfile` sees it, whether `open`/read succeeds, and its lines
(line terminators already split off; `line.strip()` removes them anyway). -/
structure InputFile where
  isfile : Bool
  readable : Bool
  lines : List String
deriving DecidableEq

/-- `read_url_list` (lines 106-122): `None` when the file is missing, cannot
be read, or holds only blank lines; otherwise the stripped non-blank lines.
The comprehension `[line.strip() for line in f if line.strip()]` is the
`filterMap`. -/
def read_url_list (f : InputFile) : Option (List String) :=
  if f.isfile = false then none
  else if f.readable = false then none
  else
    let urls := f.lines.filterMap (fun line => if pyStrip line = "" then none else some (pyStrip line))
    if urls = [] then none else some urls

/-! ## Metadata field selection (lines 300-307) -/

/-- A `requested_downloads` entry of the yt-dlp info dict. -/
structure RequestedDownload where
  filepath : Option String
deriving DecidableEq

/-- The fields of the yt-dlp info dict that the script reads.  `none` models a
missing key; a missing `requested_downloads` key is the empty list (both are
falsy in Python). -/
structure InfoDict where
  filepath : Option String
  requested_downloads : List RequestedDownload
  track : Option String
  title : Option String
  artist : Option String
  uploader : Option String
  thumbnail : Option String
deriving DecidableEq

/-- Python `x or y` where `x` is a string-valued `dict.get` result: falsy means
`None` (missing key) or the empty string. -/
def pyOrStr (x : Option String) (y : String) : String :=
  match x with
  | some s => if s = "" then y else s
  | none => y

/-- `(info.get("track") or info.get("title", "Unknown Title")).strip() or
"Unknown Title"` (lines 300-303). -/
def title_for_metadata (d : InfoDict) : String :=
  let t := pyStrip (pyOrStr d.track (d.title.getD "Unknown Title"))
  if t = "" then "Unknown Title" else t

/-- `(info.get("artist") or info.get("uploader", "Unknown Artist")).strip() or
"Unknown Artist"` (lines 304-307). -/
def artist_for_metadata (d : InfoDict) : String :=
  let a := pyStrip (pyOrStr d.artist (d.uploader.getD "Unknown Artist"))
  if a = "" then "Unknown Artist" else a

/-! ## Locating the final MP3 path (lines 274-294) -/

/-- `path.lower().endswith(".mp3")`. -/
def endsWithMp3 (s : String) : Bool :=
  match (s.toList.map Char.toLower).reverse with
  | '3' :: 'p' :: 'm' :: '.' :: _ => true
  | _ => false

/-- The scan over `requested_downloads` (lines 279-288): the first entry whose
`filepath` is truthy and ends in `.mp3`. -/
def firstRequestedMp3 : List RequestedDownload → Option String
  | [] => none
  | d :: ds =>
    match d.filepath with
    | some p => if p ≠ "" && endsWithMp3 p then some p else firstRequestedMp3 ds
    | none => firstRequestedMp3 ds

/-- Lines 274-288: start from `info.get("filepath")`; when that is falsy or not
an `.mp3` name, scan `requested_downloads` if it is truthy, keeping the old
value when no entry matches. -/
def locateMp3Path (d : InfoDict) : Option String :=
  let p0 := d.filepath
  let needFallback :=
    match p0 with
    | none => true
    | some s => s = "" || !(endsWithMp3 s)
  if needFallback && !(d.requested_downloads.isEmpty) then
    match firstRequestedMp3 d.requested_downloads with
    | some q => some q
    | none => p0
  else p0

/-! ## apply_metadata_and_cover (lines 125-214)

The function edits one MP3 file.  Its external dependencies — mutagen loads
and saves, the `requests.get` call on the thumbnail URL, the Pillow
WebP-to-JPEG re-encoding — are oracles in `CoverEnv`.  Every exception class
raised inside the body derives from Python `Exception`, so the outer
`except Exception` handler (lines 210-214) catches anything the body raises;
`TagExn` models such an escaping exception. -/

/-- A Python `Exception` escaping to the outer handler of
`apply_metadata_and_cover`. -/
inductive TagExn where
  | exc (msg : String)
deriving DecidableEq

/-- The message this model gives the mutagen exception of a failing
`audio.save()` (line 148). -/
def easySaveFailMsg : String :=
  "EasyID3 save failed"

/-- An `APIC` (attached picture) ID3 frame as the script builds it
(lines 189-197). -/
structure Apic where
  encoding : Nat
  mime : String
  picType : Nat
  desc : String
  data : List Nat
deriving DecidableEq

/-- The tag state of the MP3 file being edited. -/
structure Mp3File where
  hasId3Header : Bool
  title : Option String
  artist : Option String
  apics : List Apic
deriving DecidableEq

/-- Outcome of `requests.get(thumbnail_url, timeout=15)` followed by
`raise_for_status()`: the body bytes and `Content-Type` header, a
`requests.RequestException` (connection failure or HTTP error status), or any
other exception. -/
inductive RequestOutcome where
  | success (data : List Nat) (contentType : Option String)
  | reqError (msg : String)
  | otherError (msg : String)
deriving DecidableEq

/-- Oracle for one call of `apply_metadata_and_cover`:
* `fileAt`: `os.path.exists(mp3_filepath)` and, when present, the tag state;
* `mp3FixOk`: the `MP3(path)` / `add_tags()` / `save()` repair sequence for a
  missing ID3 header (lines 140-144);
* `easySaveOk`: `audio.save()` of the title/artist tags (line 148);
* `request`: the thumbnail HTTP fetch (lines 156-157);
* `pilJpeg`: Pillow decode + RGB conversion + JPEG re-encode of the fetched
  bytes (lines 170-179), `Except.error` when Pillow raises;
* `id3LoadOk`: `ID3(mp3_filepath)` (line 187);
* `id3SaveOk`: `audio_full.save(v2_version=3)` (line 198). -/
structure CoverEnv where
  fileAt : Option Mp3File
  mp3FixOk : Bool
  easySaveOk : Bool
  request : RequestOutcome
  pilJpeg : Except String (List Nat)
  id3LoadOk : Bool
  id3SaveOk : Bool

/-- The thumbnail block (lines 153-209): fetch, optional WebP-to-JPEG
conversion, then `delall("APIC")`, `add(APIC(...))`, `save`.  The two inner
handlers catch `RequestException` and every other exception, so the block
never raises; a failed `save` leaves the file unmodified (mutagen edits in
memory until `save`). -/
def processThumbnail (env : CoverEnv) (mp3_filepath thumbnail_url : String)
    (f : Mp3File) : List Ev × Mp3File :=
  match env.request with
  | .reqError m =>
      ([Ev.logWarning s!"  Could not download thumbnail from {thumbnail_url}: {m}"], f)
  | .otherError m =>
      ([Ev.logWarning s!"  Could not embed cover art for {mp3_filepath}: {m}"], f)
  | .success imageData ct =>
      let original_mime_type := pyLower (ct.getD "image/jpeg")
      let mimeEv := Ev.logDebug s!"  Original thumbnail MIME type: {original_mime_type}"
      let conv : List Ev × List Nat × String :=
        if original_mime_type = "image/webp" then
          match env.pilJpeg with
          | .ok jpegData =>
              ([Ev.logDebug "  Attempting to convert WEBP thumbnail to JPEG...",
                Ev.logDebug "  WEBP successfully converted to JPEG."],
               (jpegData, "image/jpeg"))
          | .error m =>
              ([Ev.logDebug "  Attempting to convert WEBP thumbnail to JPEG...",
                Ev.logWarning s!"  Failed to convert WEBP to JPEG: {m}. Trying to embed original WebP."],
               (imageData, original_mime_type))
        else ([], (imageData, original_mime_type))
      let final_image_data := conv.2.1
      let final_mime_type := conv.2.2
      if env.id3LoadOk = false then
        (mimeEv :: (conv.1
           ++ [Ev.logWarning s!"  Could not embed cover art for {mp3_filepath}: ID3 load failed"]), f)
      else if env.id3SaveOk = false then
        (mimeEv :: (conv.1
           ++ [Ev.logWarning s!"  Could not embed cover art for {mp3_filepath}: ID3 save failed"]), f)
      else
        (mimeEv :: (conv.1
           ++ [Ev.logDebug s!"  Embedded cover art (mime: {final_mime_type}) into {mp3_filepath}"]),
         { f with apics := [⟨3, final_mime_type, 3, "Cover", final_image_data⟩] })

/-- The body of the outer `try` of `apply_metadata_and_cover` (lines 134-209),
threading the file state and the events logged so far; the third component is
the exception escaping the body, if any (events already logged are kept, as
Python logging is not undone by an exception). -/
def applyBody (env : CoverEnv) (mp3_filepath title artist : String)
    (thumbnail_url : Option String) (f : Mp3File) : List Ev × Mp3File × Option TagExn :=
  let headerStep : List Ev × Mp3File × Option TagExn :=
    if f.hasId3Header then ([], f, none)
    else if env.mp3FixOk then
      ([Ev.logDebug s!"  No ID3 header in {mp3_filepath}, creating one."],
       { f with hasId3Header := true }, none)
    else
      ([Ev.logDebug s!"  No ID3 header in {mp3_filepath}, creating one."], f,
       some (TagExn.exc "MP3 tag creation failed"))
  match headerStep with
  | (evs1, f1, some e) => (evs1, f1, some e)
  | (evs1, f1, none) =>
    if env.easySaveOk = false then
      (evs1, f1, some (TagExn.exc easySaveFailMsg))
    else
      let f2 : Mp3File := { f1 with title := some title, artist := some artist }
      let evs2 := evs1 ++ [Ev.logDebug s!"  Set metadata: title={title}, artist={artist} for {mp3_filepath}"]
      match thumbnail_url with
      | none => (evs2, f2, none)
      | some u =>
          let r := processThumbnail env mp3_filepath u f2
          (evs2 ++ ((Ev.logDebug s!"  Processing thumbnail from URL: {u}") :: r.1), r.2, none)

/-- `apply_metadata_and_cover` (lines 125-214).  Returns the events logged and
the final state of the file (`none` when the file did not exist).  The result
is `Except`-typed because an exception raised by the body would propagate to
the caller; the outer handler catches every `Exception`, so no branch below
actually produces `Except.error`. -/
def apply_metadata_and_cover (env : CoverEnv) (mp3_filepath title artist : String)
    (thumbnail_url : Option String) : Except TagExn (List Ev × Option Mp3File) :=
  match env.fileAt with
  | none =>
      .ok ([Ev.logError s!"  (apply_metadata): MP3 file not found at {mp3_filepath}. Cannot apply metadata."],
           none)
  | some f =>
      let attempt := Ev.logDebug s!"  Attempting to apply metadata to: {mp3_filepath}"
      match applyBody env mp3_filepath title artist thumbnail_url f with
      | (evs, f1, some (TagExn.exc m)) =>
          .ok (attempt :: (evs ++ [Ev.logError s!"  Failed to set metadata for {mp3_filepath}: {m}"]),
               some f1)
      | (evs, f1, none) => .ok (attempt :: evs, some f1)

/-! ## download_mp3_from_urls (lines 218-401) and the entry point (405-443) -/

/-- Outcome of `ydl.extract_info(url, download=True)` (line 271): the returned
info dict (`none` models a falsy return, line 381), a
`yt_dlp.utils.DownloadError`, or any other exception. -/
inductive ExtractOutcome where
  | info (d : Option InfoDict)
  | raiseDownloadError (msg : String)
  | raiseOther (msg : String)
deriving DecidableEq

/-- A Python exception inside the per-URL loop body, as discriminated by the
two handlers at lines 386-392. -/
inductive PyExn where
  | downloadError (msg : String)
  | otherError (msg : String)
deriving DecidableEq

/-- Oracle for one whole batch run.  `extract`, `pathExists` and `cover` are
indexed by the 1-based loop iteration in which the call is made (each
iteration performs at most one of each). -/
structure World where
  dirExists : Bool
  makedirsOk : Bool
  debugEnabled : Bool
  extract : Nat → ExtractOutcome
  pathExists : Nat → String → Bool
  cover : Nat → CoverEnv

/-- The options handed to `yt_dlp.YoutubeDL` (lines 236-253), restricted to
the scalar fields. -/
structure YdlOpts where
  format : String
  preferredcodec : String
  preferredquality : String
  outtmpl : String
  noplaylist : Bool
  quiet : Bool
  ignoreerrors : String
  writethumbnail : Bool
deriving DecidableEq

/-- `ydl_opts_base` (lines 236-253): in particular the output template is
`os.path.join(output_dir, "%(title)s.%(ext)s")`. -/
def ydl_opts_base (output_dir : String) (debugEnabled : Bool) : YdlOpts :=
  { format := "bestaudio/best"
  , preferredcodec := "mp3"
  , preferredquality := "192"
  , outtmpl := ospathJoin output_dir "%(title)s.%(ext)s"
  , noplaylist := true
  , quiet := !debugEnabled
  , ignoreerrors := "only_download"
  , writethumbnail := false }

/-- The error log emitted when the final MP3 path cannot be located
(lines 370-372). -/
def locateFailEvs (url : String) : List Ev :=
  [Ev.logError s!"  Could not reliably locate the final MP3 file path from yt-dlp output for URL {url}."]

/-- The branch taken once `extract_info` returned a truthy info dict
(lines 273-380): locate the `.mp3` path, check it on disk, then tag it.
`PERFORM_CUSTOM_RENAMING` is `false` in the configuration, so the renaming
branch (lines 314-357) is statically dead and only its skip log remains.
The `Bool` result is whether `download_count` was incremented.  An exception
escaping `apply_metadata_and_cover` would propagate (no branch of it does);
`.error` carries the events already logged. -/
def infoBranch (w : World) (i : Nat) (url : String) (d : InfoDict) :
    Except (PyExn × List Ev) (List Ev × Bool) :=
  match locateMp3Path d with
  | some s =>
      if s ≠ "" && w.pathExists i s && endsWithMp3 s then
        let title := title_for_metadata d
        let artist := artist_for_metadata d
        let head :=
          [Ev.logInfo s!"  Download and conversion successful. Final file: {s}",
           Ev.logDebug s!"  Metadata extracted: Title={title}, Artist={artist}",
           if PERFORM_CUSTOM_RENAMING then
             Ev.logDebug s!"  Attempting custom renaming for: {s}"
           else
             Ev.logDebug s!"  Skipping custom renaming. Using filename from yt-dlp: {s}"]
        match apply_metadata_and_cover (w.cover i) s title artist d.thumbnail with
        | .ok (aevs, _) => .ok (head ++ aevs, true)
        | .error (.exc m) => .error (.otherError m, head)
      else .ok (locateFailEvs url, false)
  | none => .ok (locateFailEvs url, false)

/-- The body of the per-URL `try` (lines 267-384). -/
def tryBody (w : World) (i : Nat) (url : String) : Except (PyExn × List Ev) (List Ev × Bool) :=
  let dbg := Ev.logDebug s!"  Extracting info and downloading for URL: {url}"
  match w.extract i with
  | .raiseDownloadError m => .error (.downloadError m, [dbg])
  | .raiseOther m => .error (.otherError m, [dbg])
  | .info none =>
      .ok ([dbg, Ev.logWarning s!"  yt-dlp extract_info (with download) did not return sufficient information for {url}."],
           false)
  | .info (some d) =>
      match infoBranch w i url d with
      | .ok (evs, c) => .ok (dbg :: evs, c)
      | .error (e, evs) => .error (e, dbg :: evs)

/-- One loop iteration (lines 261-392): the progress log, then the `try` body;
the two handlers catch `DownloadError` and every other `Exception` and log it,
so the iteration always completes normally. -/
def processUrl (w : World) (total i : Nat) (url : String) : List Ev × Bool :=
  let progress := Ev.logProgress i total url
  match tryBody w i url with
  | .ok (evs, c) => (progress :: evs, c)
  | .error (.downloadError m, evs) =>
      (progress :: (evs ++ [Ev.logError s!"  DownloadError during processing {url}: {m}"]), false)
  | .error (.otherError m, evs) =>
      (progress :: (evs ++ [Ev.logError s!"  An unexpected error occurred while processing {url}: {m}"]), false)

/-- The `for i, url in enumerate(urls, 1)` loop, from iteration `i` on,
returning the trace and the number of successful downloads. -/
def runLoop (w : World) (total : Nat) : Nat → List String → List Ev × Nat
  | _, [] => ([], 0)
  | i, url :: rest =>
      let r := processUrl w total i url
      let r2 := runLoop w total (i + 1) rest
      (r.1 ++ r2.1, (if r.2 then 1 else 0) + r2.2)

/-- `download_mp3_from_urls` (lines 218-401): create the output directory when
absent (an `OSError` there is logged and re-raised, line 229), log the two
header lines, run the loop, log the summary.  The `Except.error` result models
the exception escaping to the caller. -/
def download_mp3_from_urls (w : World) (urls : List String) (output_dir : String) :
    Except PyExn (List Ev) :=
  let mk : Except PyExn (List Ev) :=
    if w.dirExists = false then
      if w.makedirsOk then
        .ok [Ev.mkdirOut output_dir, Ev.logInfo s!"Created output directory: {output_dir}"]
      else .error (.otherError s!"Could not create output directory {output_dir}")
    else .ok []
  match mk with
  | .error e => .error e
  | .ok evs0 =>
      let total := urls.length
      let header := [Ev.logInfo s!"Starting download process for {total} URL(s)...",
                     Ev.logInfo s!"Output directory: {output_dir}"]
      let loopR := runLoop w total 1 urls
      let footer :=
        [Ev.logInfo "\n--- Download Process Finished ---"]
          ++ (if loopR.2 > 0 then
                [Ev.logInfo s!"Successfully attempted to download and process {loopR.2} out of {total} item(s)."]
              else [Ev.logInfo "No items were successfully downloaded or processed."])
          ++ [Ev.logInfo s!"Files are located in: {output_dir}"]
      .ok (evs0 ++ header ++ loopR.1 ++ footer)

/-- The `__main__` block after argument parsing (lines 426-443): exit status 1
when `read_url_list` yields nothing truthy or `download_mp3_from_urls` raises,
status 0 otherwise. -/
def script_main (file : InputFile) (w : World) : Nat :=
  match read_url_list file with
  | some urls =>
      if urls.isEmpty then 1
      else
        match download_mp3_from_urls w urls OUTPUT_DIRECTORY_NAME with
        | .error _ => 1
        | .ok _ => 0
  | none => 1

/-- The trace of a successful batch run. -/
def okTrace (r : Except PyExn (List Ev)) : List Ev :=
  match r with
  | .ok tr => tr
  | .error _ => []

/-- The APIC MIME types on the resulting file of an
`apply_metadata_and_cover` run. -/
def resultApicMimes (r : Except TagExn (List Ev × Option Mp3File)) : Option (List String) :=
  match r with
  | .ok (_, some f) => some (f.apics.map Apic.mime)
  | _ => none

/-! ## Helper lemmas about event traces -/

@[simp] lemma plainEvs_nil : plainEvs [] = true := rfl

@[simp] lemma plainEvs_cons (a : Ev) (l : List Ev) :
    plainEvs (a :: l) = (Ev.isPlain a && plainEvs l) := by
  simp [plainEvs]

@[simp] lemma plainEvs_append (l1 l2 : List Ev) :
    plainEvs (l1 ++ l2) = (plainEvs l1 && plainEvs l2) := by
  simp [plainEvs]

lemma isPlain_not_progress {e : Ev} (h : Ev.isPlain e = true) : Ev.isProgress e = false := by
  cases e <;> simp [Ev.isPlain, Ev.isProgress] at h ⊢

lemma isPlain_ne_mkdir {e : Ev} (h : Ev.isPlain e = true) (d : String) :
    e ≠ Ev.mkdirOut d := by
  cases e <;> simp [Ev.isPlain] at h ⊢

lemma plainEvs_filter_progress {l : List Ev} (h : plainEvs l = true) :
    l.filter Ev.isProgress = [] := by
  induction l with
  | nil => rfl
  | cons a l ih =>
      rw [plainEvs_cons, Bool.and_eq_true] at h
      simp [List.filter_cons, isPlain_not_progress h.1, ih h.2]

lemma plainEvs_not_mem_mkdir {l : List Ev} (h : plainEvs l = true) (d : String) :
    Ev.mkdirOut d ∉ l := by
  induction l with
  | nil => simp
  | cons a l ih =>
      rw [plainEvs_cons, Bool.and_eq_true] at h
      simp only [List.mem_cons, not_or]
      exact ⟨fun he => isPlain_ne_mkdir h.1 d he.symm, ih h.2⟩

lemma plain_processThumbnail (env : CoverEnv) (p u : String) (f : Mp3File) :
    plainEvs (processThumbnail env p u f).1 = true := by
  unfold processThumbnail
  cases env.request <;> dsimp only <;> (repeat' split) <;> rfl

lemma plain_applyBody (env : CoverEnv) (p t a : String) (th : Option String) (f : Mp3File) :
    plainEvs (applyBody env p t a th f).1 = true := by
  unfold applyBody
  cases hf : f.hasId3Header <;> cases hfix : env.mp3FixOk <;>
    cases hsave : env.easySaveOk <;> cases th <;>
    simp [hf, hfix, hsave, Ev.isPlain, plain_processThumbnail]

lemma plain_apply {env : CoverEnv} {p t a : String} {th : Option String}
    {r : List Ev × Option Mp3File}
    (h : apply_metadata_and_cover env p t a th = .ok r) : plainEvs r.1 = true := by
  simp only [apply_metadata_and_cover] at h
  split at h
  · cases h
    rfl
  · rename_i f hfa
    have hb := plain_applyBody env p t a th f
    rcases hab : applyBody env p t a th f with ⟨evs, f1, exn⟩
    rw [hab] at hb
    simp only [hab] at h
    rcases exn with _ | ⟨m⟩ <;> cases h <;> simp_all [Ev.isPlain]

lemma plain_infoBranch_ok {w : World} {i : Nat} {url : String} {d : InfoDict}
    {evs : List Ev} {c : Bool}
    (h : infoBranch w i url d = .ok (evs, c)) : plainEvs evs = true := by
  simp only [infoBranch] at h
  split at h
  · -- locateMp3Path d = some s
    rename_i s hs
    split at h
    · -- path accepted on disk
      rcases ha : apply_metadata_and_cover (w.cover i) s (title_for_metadata d)
          (artist_for_metadata d) d.thumbnail with ⟨m⟩ | ⟨aevs, rest⟩
      · simp only [ha] at h
        cases h
      · simp only [ha] at h
        cases h
        have := plain_apply ha
        simp_all [Ev.isPlain, PERFORM_CUSTOM_RENAMING]
    · cases h
      simp [locateFailEvs, Ev.isPlain]
  · cases h
    simp [locateFailEvs, Ev.isPlain]

lemma plain_infoBranch_err {w : World} {i : Nat} {url : String} {d : InfoDict}
    {e : PyExn} {evs : List Ev}
    (h : infoBranch w i url d = .error (e, evs)) : plainEvs evs = true := by
  simp only [infoBranch] at h
  split at h
  · rename_i s hs
    split at h
    · rcases ha : apply_metadata_and_cover (w.cover i) s (title_for_metadata d)
          (artist_for_metadata d) d.thumbnail with ⟨m⟩ | ⟨aevs, rest⟩
      · simp only [ha] at h
        cases h
        simp [Ev.isPlain, PERFORM_CUSTOM_RENAMING]
      · simp only [ha] at h
        cases h
    · cases h
  · cases h

lemma plain_tryBody_ok {w : World} {i : Nat} {url : String} {evs : List Ev} {c : Bool}
    (h : tryBody w i url = .ok (evs, c)) : plainEvs evs = true := by
  simp only [tryBody] at h
  cases hx : w.extract i with
  | raiseDownloadError m => simp [hx] at h
  | raiseOther m => simp [hx] at h
  | info od =>
      cases od with
      | none =>
          simp only [hx] at h
          cases h
          simp [Ev.isPlain]
      | some d =>
          simp only [hx] at h
          rcases hib : infoBranch w i url d with ⟨be, bevs⟩ | ⟨bevs, bc⟩
          · simp only [hib] at h
            cases h
          · simp only [hib] at h
            cases h
            have := plain_infoBranch_ok hib
            simp_all [Ev.isPlain]

lemma plain_tryBody_err {w : World} {i : Nat} {url : String} {e : PyExn} {evs : List Ev}
    (h : tryBody w i url = .error (e, evs)) : plainEvs evs = true := by
  simp only [tryBody] at h
  cases hx : w.extract i with
  | raiseDownloadError m =>
      simp only [hx] at h
      cases h
      simp [Ev.isPlain]
  | raiseOther m =>
      simp only [hx] at h
      cases h
      simp [Ev.isPlain]
  | info od =>
      cases od with
      | none => simp [hx] at h
      | some d =>
          simp only [hx] at h
          rcases hib : infoBranch w i url d with ⟨be, bevs⟩ | ⟨bevs, bc⟩
          · simp only [hib] at h
            cases h
            have := plain_infoBranch_err hib
            simp_all [Ev.isPlain]
          · simp only [hib] at h
            cases h

lemma processUrl_events (w : World) (total i : Nat) (url : String) :
    ∃ tl, (processUrl w total i url).1 = Ev.logProgress i total url :: tl
      ∧ plainEvs tl = true := by
  rcases ht : tryBody w i url with ⟨e, evs⟩ | ⟨evs, c⟩
  swap
  · refine ⟨evs, ?_, plain_tryBody_ok ht⟩
    simp [processUrl, ht]
  · cases e with
    | downloadError m =>
        refine ⟨evs ++ [Ev.logError s!"  DownloadError during processing {url}: {m}"], ?_, ?_⟩
        · simp [processUrl, ht]
        · simp [plain_tryBody_err ht, Ev.isPlain]
    | otherError m =>
        refine ⟨evs ++ [Ev.logError s!"  An unexpected error occurred while processing {url}: {m}"],
          ?_, ?_⟩
        · simp [processUrl, ht]
        · simp [plain_tryBody_err ht, Ev.isPlain]

/-- The 1-based indexing `enumerate(urls, 1)` of the download loop. -/
def indexedFrom : Nat → List String → List (Nat × String)
  | _, [] => []
  | i, a :: as => (i, a) :: indexedFrom (i + 1) as

lemma processUrl_filter_progress (w : World) (total i : Nat) (url : String) :
    ((processUrl w total i url).1).filter Ev.isProgress = [Ev.logProgress i total url] := by
  obtain ⟨tl, hd, hp⟩ := processUrl_events w total i url
  rw [hd]
  simp [List.filter_cons, Ev.isProgress, plainEvs_filter_progress hp]

lemma processUrl_no_mkdir (w : World) (total i : Nat) (url : String) (d : String) :
    Ev.mkdirOut d ∉ (processUrl w total i url).1 := by
  obtain ⟨tl, hd, hp⟩ := processUrl_events w total i url
  rw [hd]
  simp only [List.mem_cons, not_or]
  exact ⟨by simp, plainEvs_not_mem_mkdir hp d⟩

lemma runLoop_filter_progress (w : World) (total : Nat) :
    ∀ (urls : List String) (i : Nat),
      ((runLoop w total i urls).1).filter Ev.isProgress
        = (indexedFrom i urls).map (fun p => Ev.logProgress p.1 total p.2) := by
  intro urls
  induction urls with
  | nil => intro i; rfl
  | cons u us ih =>
      intro i
      simp [runLoop, indexedFrom, List.filter_append, processUrl_filter_progress, ih]

lemma runLoop_no_mkdir (w : World) (total : Nat) :
    ∀ (urls : List String) (i : Nat) (d : String),
      Ev.mkdirOut d ∉ (runLoop w total i urls).1 := by
  intro urls
  induction urls with
  | nil => intro i d; simp [runLoop]
  | cons u us ih =>
      intro i d
      have h1 := processUrl_no_mkdir w total i u d
      have h2 := ih (i + 1) d
      simp only [runLoop, List.mem_append, not_or]
      exact ⟨h1, h2⟩

lemma runLoop_append (w : World) (total : Nat) :
    ∀ (l1 l2 : List String) (i : Nat),
      runLoop w total i (l1 ++ l2)
        = ((runLoop w total i l1).1 ++ (runLoop w total (i + l1.length) l2).1,
           (runLoop w total i l1).2 + (runLoop w total (i + l1.length) l2).2) := by
  intro l1
  induction l1 with
  | nil => intro l2 i; simp [runLoop]
  | cons u us ih =>
      intro l2 i
      have hidx : i + (us.length + 1) = (i + 1) + us.length := by omega
      simp [runLoop, ih, List.append_assoc, Nat.add_assoc, hidx]

/-- Splitting the loop trace at one URL of the list. -/
lemma runLoop_split (w : World) (total : Nat) (pre post : List String) (u : String) :
    (runLoop w total 1 (pre ++ u :: post)).1
      = (runLoop w total 1 pre).1 ++ (processUrl w total (pre.length + 1) u).1
        ++ (runLoop w total (pre.length + 2) post).1 := by
  rw [runLoop_append w total pre (u :: post) 1]
  have h1 : 1 + pre.length = pre.length + 1 := by omega
  have h2 : pre.length + 1 + 1 = pre.length + 2 := by omega
  simp [runLoop, h1, h2, List.append_assoc]

/-- One loop iteration depends on the oracle only through the calls that
iteration makes. -/
lemma processUrl_congr (w w2 : World) (total i : Nat) (url : String)
    (h1 : w.extract i = w2.extract i) (h2 : w.pathExists i = w2.pathExists i)
    (h3 : w.cover i = w2.cover i) :
    processUrl w total i url = processUrl w2 total i url := by
  simp only [processUrl, tryBody, infoBranch, h1, h2, h3]

lemma runLoop_congr (w w2 : World) (total : Nat) :
    ∀ (urls : List String) (i : Nat),
      (∀ j, i ≤ j → w.extract j = w2.extract j ∧ w.pathExists j = w2.pathExists j
        ∧ w.cover j = w2.cover j) →
      runLoop w total i urls = runLoop w2 total i urls := by
  intro urls
  induction urls with
  | nil => intro i h; rfl
  | cons u us ih =>
      intro i h
      have hu := h i (le_refl i)
      simp only [runLoop]
      rw [processUrl_congr w w2 total i u hu.1 hu.2.1 hu.2.2,
          ih (i + 1) (fun j hj => h j (by omega))]

/-- `apply_metadata_and_cover` lets no exception escape. -/
lemma apply_isOk (env : CoverEnv) (p t a : String) (th : Option String) :
    ∃ r, apply_metadata_and_cover env p t a th = .ok r := by
  unfold apply_metadata_and_cover
  cases hfa : env.fileAt with
  | none => exact ⟨_, rfl⟩
  | some f =>
      dsimp only
      rcases hab : applyBody env p t a th f with ⟨evs, f1, exn⟩
      rcases exn with _ | ⟨m⟩
      · exact ⟨_, rfl⟩
      · cases m
        exact ⟨_, rfl⟩

/-- The comprehension of `read_url_list` equals strip-then-drop-blanks. -/
lemma trim_filterMap_eq (ls : List String) :
    (ls.filterMap fun line => if pyStrip line = "" then none else some (pyStrip line))
      = (ls.map pyStrip).filter (fun s => s ≠ "") := by
  induction ls with
  | nil => rfl
  | cons a as ih =>
      by_cases h : pyStrip a = "" <;>
        simp [List.filterMap_cons, List.filter_cons, h, ih]

lemma read_some_ne_nil {f : InputFile} {l : List String} (h : read_url_list f = some l) :
    l ≠ [] := by
  simp only [read_url_list] at h
  split at h
  · cases h
  · split at h
    · cases h
    · split at h
      · cases h
      · cases h
        assumption

/-! ## Concrete sample environments used by witnesses and counterexamples -/

/-- A cover environment whose thumbnail fetch fails; used where the cover part
is irrelevant. -/
def wEnvDefault : CoverEnv := ⟨none, true, true, .reqError "x", .ok [], true, true⟩

/-- A cover environment with no file at the target path. -/
def envNoFile : CoverEnv := ⟨none, true, true, .reqError "x", .ok [], true, true⟩

/-- An MP3 file that already carries two cover frames. -/
def sampleMp3 : Mp3File :=
  ⟨true, none, none, [⟨3, "image/png", 3, "old", [0]⟩, ⟨3, "image/png", 3, "old2", [1]⟩]⟩

/-- Environment for a straightforward PNG-thumbnail tagging run. -/
def envC10 : CoverEnv :=
  ⟨some sampleMp3, true, true, .success [5] (some "image/png"), .ok [], true, true⟩

/-- A WebP thumbnail whose Pillow conversion raises. -/
def envC5fail : CoverEnv :=
  ⟨some ⟨true, none, none, []⟩, true, true, .success [7, 7] (some "image/webp"),
   .error "cannot identify image file", true, true⟩

/-- A WebP thumbnail whose Pillow conversion succeeds. -/
def envC5ok : CoverEnv :=
  ⟨some ⟨true, none, none, []⟩, true, true, .success [7, 7] (some "image/webp"),
   .ok [9, 9, 9], true, true⟩

/-! ## The claims -/

/-- C3: for every input file that exists and is readable, `read_url_list`
returns exactly the file lines that are non-empty after stripping surrounding
whitespace, each stripped, in file order — and `some l` is returned precisely
when that sequence is the non-empty `l`. -/
theorem claim_C3 (f : InputFile) (l : List String) :
    read_url_list f = some l ↔
      (f.isfile = true ∧ f.readable = true
        ∧ l = (f.lines.map pyStrip).filter (fun s => s ≠ "") ∧ l ≠ []) := by
  constructor
  · intro h
    have hne := read_some_ne_nil h
    simp only [read_url_list] at h
    split at h
    · cases h
    · split at h
      · cases h
      · split at h
        · cases h
        · rename_i h1 h2 h3
          cases h
          simp only [Bool.not_eq_false] at h1 h2
          exact ⟨h1, h2, (trim_filterMap_eq f.lines).symm.symm, hne⟩
  · rintro ⟨h1, h2, h3, h4⟩
    simp only [read_url_list, h1, h2]
    rw [if_neg (by simp), if_neg (by simp), trim_filterMap_eq, ← h3, if_neg h4]

/-- C8: `read_url_list` never returns an empty list: any `some` result holds
at least one URL. -/
theorem claim_C8 (f : InputFile) (l : List String) (h : read_url_list f = some l) :
    0 < l.length :=
  List.length_pos.mpr (read_some_ne_nil h)

theorem claim_C8_witness : 0 < (["u1"] : List String).length :=
  claim_C8 ⟨true, true, ["u1", "", "  "]⟩ ["u1"] (by decide)

/-- C4: when neither `track` nor `title` is available the title written is
"Unknown Title", and when neither `artist` nor `uploader` is available the
artist written is "Unknown Artist". -/
theorem claim_C4 (d : InfoDict) :
    (d.track = none → d.title = none → title_for_metadata d = "Unknown Title")
    ∧ (d.artist = none → d.uploader = none → artist_for_metadata d = "Unknown Artist") := by
  constructor
  · intro h1 h2
    unfold title_for_metadata pyOrStr
    rw [h1, h2]
    decide
  · intro h1 h2
    unfold artist_for_metadata pyOrStr
    rw [h1, h2]
    decide

theorem claim_C4_witness :
    title_for_metadata ⟨none, [], none, none, none, none, none⟩ = "Unknown Title"
    ∧ artist_for_metadata ⟨none, [], none, none, none, none, none⟩ = "Unknown Artist" :=
  ⟨(claim_C4 ⟨none, [], none, none, none, none, none⟩).1 rfl rfl,
   (claim_C4 ⟨none, [], none, none, none, none, none⟩).2 rfl rfl⟩

/-- C9: `apply_metadata_and_cover` never raises; when the MP3 file does not
exist it only logs an error and leaves the filesystem untouched; a failing tag
write is caught and logged inside the function, leaving the file state as it
was. -/
theorem claim_C9 (env : CoverEnv) (p t a : String) (th : Option String) :
    (∃ r, apply_metadata_and_cover env p t a th = .ok r)
    ∧ (env.fileAt = none →
        apply_metadata_and_cover env p t a th
          = .ok ([Ev.logError s!"  (apply_metadata): MP3 file not found at {p}. Cannot apply metadata."],
                 none))
    ∧ (∀ f, env.fileAt = some f → f.hasId3Header = true → env.easySaveOk = false →
        apply_metadata_and_cover env p t a th
          = .ok ([Ev.logDebug s!"  Attempting to apply metadata to: {p}",
                  Ev.logError s!"  Failed to set metadata for {p}: {easySaveFailMsg}"],
                 some f)) := by
  refine ⟨apply_isOk env p t a th, ?_, ?_⟩
  · intro h
    simp [apply_metadata_and_cover, h]
  · intro f hf hhdr hsave
    simp [apply_metadata_and_cover, applyBody, hf, hhdr, hsave]

theorem claim_C9_witness :
    apply_metadata_and_cover envNoFile "p" "t" "a" none
      = .ok ([Ev.logError "  (apply_metadata): MP3 file not found at p. Cannot apply metadata."],
             none) :=
  (claim_C9 envNoFile "p" "t" "a" none).2.1 rfl

/-- C10: embedding cover art deletes every existing APIC frame before adding
the new one, so a run whose thumbnail fetch and tag writes succeed leaves
exactly one APIC frame on the file. -/
theorem claim_C10 (env : CoverEnv) (p t a u : String) (data : List Nat)
    (ct : Option String) (f : Mp3File)
    (hfa : env.fileAt = some f)
    (hhdr : f.hasId3Header = true ∨ env.mp3FixOk = true)
    (hsave : env.easySaveOk = true)
    (hreq : env.request = .success data ct)
    (hload : env.id3LoadOk = true) (hsaveId3 : env.id3SaveOk = true) :
    ∃ evs f1, apply_metadata_and_cover env p t a (some u) = .ok (evs, some f1)
      ∧ f1.apics.length = 1 := by
  have hfix : f.hasId3Header = true ∨ (f.hasId3Header = false ∧ env.mp3FixOk = true) := by
    cases hfb : f.hasId3Header
    · rcases hhdr with hh | hh
      · rw [hfb] at hh
        cases hh
      · exact Or.inr ⟨rfl, hh⟩
    · exact Or.inl rfl
  by_cases hm : pyLower (ct.getD "image/jpeg") = "image/webp"
  · rcases hpil : env.pilJpeg with ⟨em⟩ | ⟨jp⟩
    · rcases hfix with hh | ⟨hh1, hh2⟩
      · simp [apply_metadata_and_cover, applyBody, processThumbnail, hfa, hh,
          hsave, hreq, hload, hsaveId3, hm, hpil]
        try exact ⟨_, _, ⟨rfl, rfl⟩, rfl⟩
      · simp [apply_metadata_and_cover, applyBody, processThumbnail, hfa, hh1, hh2,
          hsave, hreq, hload, hsaveId3, hm, hpil]
        try exact ⟨_, _, ⟨rfl, rfl⟩, rfl⟩
    · rcases hfix with hh | ⟨hh1, hh2⟩
      · simp [apply_metadata_and_cover, applyBody, processThumbnail, hfa, hh,
          hsave, hreq, hload, hsaveId3, hm, hpil]
        try exact ⟨_, _, ⟨rfl, rfl⟩, rfl⟩
      · simp [apply_metadata_and_cover, applyBody, processThumbnail, hfa, hh1, hh2,
          hsave, hreq, hload, hsaveId3, hm, hpil]
        try exact ⟨_, _, ⟨rfl, rfl⟩, rfl⟩
  · rcases hfix with hh | ⟨hh1, hh2⟩
    · simp [apply_metadata_and_cover, applyBody, processThumbnail, hfa, hh,
        hsave, hreq, hload, hsaveId3, hm]
      try exact ⟨_, _, ⟨rfl, rfl⟩, rfl⟩
    · simp [apply_metadata_and_cover, applyBody, processThumbnail, hfa, hh1, hh2,
        hsave, hreq, hload, hsaveId3, hm]
      try exact ⟨_, _, ⟨rfl, rfl⟩, rfl⟩

theorem claim_C10_witness :
    ∃ evs f1, apply_metadata_and_cover envC10 "p" "t" "a" (some "u") = .ok (evs, some f1)
      ∧ f1.apics.length = 1 :=
  claim_C10 envC10 "p" "t" "a" "u" [5] (some "image/png") sampleMp3 rfl (Or.inl rfl)
    rfl rfl rfl rfl

/-- C5 counterexample: a fetched thumbnail with Content-Type image/webp whose
Pillow conversion raises is embedded as the original WebP bytes with MIME type
image/webp, not converted to JPEG — refuting the claim that every such
thumbnail yields an APIC frame with MIME image/jpeg. -/
theorem claim_C5_counterexample :
    resultApicMimes (apply_metadata_and_cover envC5fail "song.mp3" "t" "a" (some "u"))
        = some ["image/webp"]
      ∧ "image/webp" ≠ "image/jpeg" := by
  constructor
  · rfl
  · decide

/-- C5 (amended): a fetched thumbnail with Content-Type image/webp is
converted to JPEG and embedded with MIME image/jpeg when the Pillow
re-encoding succeeds; when Pillow raises, the original WebP bytes are embedded
with MIME image/webp instead. -/
theorem claim_C5_amended (env : CoverEnv) (p t a u : String) (data jpeg : List Nat)
    (ct : Option String) (f : Mp3File)
    (hfa : env.fileAt = some f)
    (hhdr : f.hasId3Header = true ∨ env.mp3FixOk = true)
    (hsave : env.easySaveOk = true)
    (hreq : env.request = .success data ct)
    (hmime : pyLower (ct.getD "image/jpeg") = "image/webp")
    (hload : env.id3LoadOk = true) (hsaveId3 : env.id3SaveOk = true) :
    (env.pilJpeg = .ok jpeg →
      ∃ evs f1, apply_metadata_and_cover env p t a (some u) = .ok (evs, some f1)
        ∧ f1.apics = [⟨3, "image/jpeg", 3, "Cover", jpeg⟩])
    ∧ (∀ em, env.pilJpeg = .error em →
      ∃ evs f1, apply_metadata_and_cover env p t a (some u) = .ok (evs, some f1)
        ∧ f1.apics = [⟨3, "image/webp", 3, "Cover", data⟩]) := by
  have hfix : f.hasId3Header = true ∨ (f.hasId3Header = false ∧ env.mp3FixOk = true) := by
    cases hfb : f.hasId3Header
    · rcases hhdr with hh | hh
      · rw [hfb] at hh
        cases hh
      · exact Or.inr ⟨rfl, hh⟩
    · exact Or.inl rfl
  constructor
  · intro hpil
    rcases hfix with hh | ⟨hh1, hh2⟩
    · simp [apply_metadata_and_cover, applyBody, processThumbnail, hfa, hh,
        hsave, hreq, hmime, hload, hsaveId3, hpil]
      try exact ⟨_, _, ⟨rfl, rfl⟩, rfl⟩
    · simp [apply_metadata_and_cover, applyBody, processThumbnail, hfa, hh1, hh2,
        hsave, hreq, hmime, hload, hsaveId3, hpil]
      try exact ⟨_, _, ⟨rfl, rfl⟩, rfl⟩
  · intro em hpil
    rcases hfix with hh | ⟨hh1, hh2⟩
    · simp [apply_metadata_and_cover, applyBody, processThumbnail, hfa, hh,
        hsave, hreq, hmime, hload, hsaveId3, hpil]
      try exact ⟨_, _, ⟨rfl, rfl⟩, rfl⟩
    · simp [apply_metadata_and_cover, applyBody, processThumbnail, hfa, hh1, hh2,
        hsave, hreq, hmime, hload, hsaveId3, hpil]
      try exact ⟨_, _, ⟨rfl, rfl⟩, rfl⟩

theorem claim_C5_witness :
    ∃ evs f1, apply_metadata_and_cover envC5ok "p" "t" "a" (some "u") = .ok (evs, some f1)
      ∧ f1.apics = [⟨3, "image/jpeg", 3, "Cover", [9, 9, 9]⟩] :=
  (claim_C5_amended envC5ok "p" "t" "a" "u" [7, 7] [9, 9, 9] (some "image/webp")
    ⟨true, none, none, []⟩ rfl (Or.inl rfl) rfl rfl (by decide) rfl rfl).1 rfl

/-- The batch driver raises exactly when the output directory is absent and
cannot be created (lines 222-229); nothing inside the loop escapes. -/
lemma download_error_iff (w : World) (urls : List String) (d : String) :
    (∃ e, download_mp3_from_urls w urls d = .error e)
      ↔ (w.dirExists = false ∧ w.makedirsOk = false) := by
  unfold download_mp3_from_urls
  cases hde : w.dirExists <;> cases hmk : w.makedirsOk <;> simp [hde, hmk]

/-- Header, footer and directory events of a successful batch run are not
progress logs: the progress logs of the trace are those of the loop. -/
lemma download_ok_filter_progress {w : World} {urls : List String} {d : String}
    {tr : List Ev} (h : download_mp3_from_urls w urls d = .ok tr) :
    tr.filter Ev.isProgress = ((runLoop w urls.length 1 urls).1).filter Ev.isProgress := by
  unfold download_mp3_from_urls at h
  cases hde : w.dirExists <;> cases hmk : w.makedirsOk <;> simp only [hde, hmk] at h
  · cases h
  · cases h
    by_cases hc : (runLoop w urls.length 1 urls).2 > 0 <;>
      simp [hc, List.filter_append, List.filter_cons, Ev.isProgress]
  · cases h
    by_cases hc : (runLoop w urls.length 1 urls).2 > 0 <;>
      simp [hc, List.filter_append, List.filter_cons, Ev.isProgress]
  · cases h
    by_cases hc : (runLoop w urls.length 1 urls).2 > 0 <;>
      simp [hc, List.filter_append, List.filter_cons, Ev.isProgress]

/-- C2: the run exits non-zero exactly when `read_url_list` yields nothing or
`download_mp3_from_urls` raises — and the latter happens only when the output
directory is missing and cannot be created, never from per-URL failures. -/
theorem claim_C2 (file : InputFile) (w : World) :
    (script_main file w ≠ 0 ↔
      read_url_list file = none
        ∨ ∃ urls e, read_url_list file = some urls
            ∧ download_mp3_from_urls w urls OUTPUT_DIRECTORY_NAME = .error e)
    ∧ (∀ urls, (∃ e, download_mp3_from_urls w urls OUTPUT_DIRECTORY_NAME = .error e)
          ↔ (w.dirExists = false ∧ w.makedirsOk = false)) := by
  refine ⟨?_, fun urls => download_error_iff w urls OUTPUT_DIRECTORY_NAME⟩
  cases hr : read_url_list file with
  | none => simp [script_main, hr]
  | some urls =>
      have hne := read_some_ne_nil hr
      cases hurls : urls with
      | nil => exact absurd hurls hne
      | cons u us =>
          subst hurls
          cases hd : download_mp3_from_urls w (u :: us) OUTPUT_DIRECTORY_NAME with
          | error e => simp [script_main, hr, hd]
          | ok tr => simp [script_main, hr, hd]

/-! Sample worlds for witnesses. -/

/-- A world in which every extraction returns no information. -/
def wBase : World :=
  ⟨true, true, false, fun _ => .info none, fun _ _ => false, fun _ => wEnvDefault⟩

/-- `wBase`, but the output directory does not exist yet. -/
def wNoDir : World :=
  ⟨false, true, false, fun _ => .info none, fun _ _ => false, fun _ => wEnvDefault⟩

/-- `wBase`, but iteration 1 raises a `DownloadError`. -/
def wFailAt1 : World :=
  { wBase with extract := fun j => if j = 1 then .raiseDownloadError "boom" else .info none }

/-- C6: the output template is `downloaded_music/%(title)s.%(ext)s`, placing
every download under the fixed output directory, and the directory is created
exactly when it does not already exist. -/
theorem claim_C6 (dbg : Bool) (w : World) (urls : List String) :
    (ydl_opts_base OUTPUT_DIRECTORY_NAME dbg).outtmpl = "downloaded_music/%(title)s.%(ext)s"
    ∧ ((ydl_opts_base OUTPUT_DIRECTORY_NAME dbg).outtmpl
        = OUTPUT_DIRECTORY_NAME ++ "/" ++ "%(title)s.%(ext)s")
    ∧ (∀ tr, w.dirExists = false →
        download_mp3_from_urls w urls OUTPUT_DIRECTORY_NAME = .ok tr →
        Ev.mkdirOut OUTPUT_DIRECTORY_NAME ∈ tr)
    ∧ (∀ tr, w.dirExists = true →
        download_mp3_from_urls w urls OUTPUT_DIRECTORY_NAME = .ok tr →
        ∀ dir, Ev.mkdirOut dir ∉ tr) := by
  refine ⟨rfl, rfl, ?_, ?_⟩
  · intro tr hde hok
    unfold download_mp3_from_urls at hok
    cases hmk : w.makedirsOk <;> simp only [hde, hmk] at hok
    · cases hok
    · cases hok
      simp
  · intro tr hde hok dir
    unfold download_mp3_from_urls at hok
    simp only [hde] at hok
    cases hok
    have hloop := runLoop_no_mkdir w urls.length urls 1 dir
    by_cases hc : 0 < (runLoop w urls.length 1 urls).2 <;>
      simp [hc, List.mem_append, hloop]

theorem claim_C6_witness :
    Ev.mkdirOut OUTPUT_DIRECTORY_NAME
      ∈ okTrace (download_mp3_from_urls wNoDir [] OUTPUT_DIRECTORY_NAME) :=
  (claim_C6 false wNoDir []).2.2.1
    (okTrace (download_mp3_from_urls wNoDir [] OUTPUT_DIRECTORY_NAME)) rfl rfl

/-- C7: URLs are processed strictly sequentially in input order — the loop
trace is the concatenation of the per-iteration traces, split at any URL —
and the progress logs of a successful run are exactly one
`[i/N] Processing URL: url` line per URL, in order, rendered in that form. -/
theorem claim_C7 (w : World) (urls : List String) (tr : List Ev)
    (h : download_mp3_from_urls w urls OUTPUT_DIRECTORY_NAME = .ok tr) :
    tr.filter Ev.isProgress
        = (indexedFrom 1 urls).map (fun p => Ev.logProgress p.1 urls.length p.2)
    ∧ (∀ pre post u, urls = pre ++ u :: post →
        (runLoop w urls.length 1 urls).1
          = (runLoop w urls.length 1 pre).1
            ++ (processUrl w urls.length (pre.length + 1) u).1
            ++ (runLoop w urls.length (pre.length + 2) post).1)
    ∧ (∀ i n u2, renderEv (Ev.logProgress i n u2) = s!"[{i}/{n}] Processing URL: {u2}") := by
  refine ⟨?_, ?_, fun i n u2 => rfl⟩
  · rw [download_ok_filter_progress h]
    exact runLoop_filter_progress w urls.length urls 1
  · intro pre post u hu
    have := runLoop_split w urls.length pre post u
    rw [← hu] at this
    exact this

theorem claim_C7_witness :
    (okTrace (download_mp3_from_urls wBase ["u1"] OUTPUT_DIRECTORY_NAME)).filter Ev.isProgress
      = (indexedFrom 1 ["u1"]).map
          (fun p => Ev.logProgress p.1 (["u1"] : List String).length p.2) :=
  (claim_C7 wBase ["u1"]
    (okTrace (download_mp3_from_urls wBase ["u1"] OUTPUT_DIRECTORY_NAME)) rfl).1

/-- C1: when extracting one URL raises (a `DownloadError` or any other
exception), the failure is logged as an error for that iteration, the loop
still runs every iteration — its trace is the concatenation around the failed
one — and every subsequent iteration proceeds exactly as it would under any
world that agrees with this one after the failing position. -/
theorem claim_C1 (w w2 : World) (pre post : List String) (u m : String)
    (hraise : w.extract (pre.length + 1) = .raiseDownloadError m
      ∨ w.extract (pre.length + 1) = .raiseOther m)
    (hagree : ∀ j, pre.length + 1 < j →
      w.extract j = w2.extract j ∧ w.pathExists j = w2.pathExists j
        ∧ w.cover j = w2.cover j) :
    (∃ msg, Ev.logError msg ∈ (processUrl w (pre ++ u :: post).length (pre.length + 1) u).1)
    ∧ ((runLoop w (pre ++ u :: post).length 1 (pre ++ u :: post)).1
        = (runLoop w (pre ++ u :: post).length 1 pre).1
          ++ (processUrl w (pre ++ u :: post).length (pre.length + 1) u).1
          ++ (runLoop w (pre ++ u :: post).length (pre.length + 2) post).1)
    ∧ runLoop w (pre ++ u :: post).length (pre.length + 2) post
        = runLoop w2 (pre ++ u :: post).length (pre.length + 2) post := by
  refine ⟨?_, runLoop_split w (pre ++ u :: post).length pre post u,
    runLoop_congr w w2 (pre ++ u :: post).length post (pre.length + 2)
      (fun j hj => hagree j (by omega))⟩
  rcases hraise with h | h
  · exact ⟨s!"  DownloadError during processing {u}: {m}",
      by simp [processUrl, tryBody, h]⟩
  · exact ⟨s!"  An unexpected error occurred while processing {u}: {m}",
      by simp [processUrl, tryBody, h]⟩

theorem claim_C1_witness :
    (∃ msg, Ev.logError msg ∈ (processUrl wFailAt1 2 1 "u").1)
    ∧ ((runLoop wFailAt1 2 1 ["u", "v"]).1
        = (runLoop wFailAt1 2 1 ([] : List String)).1 ++ (processUrl wFailAt1 2 1 "u").1
          ++ (runLoop wFailAt1 2 2 ["v"]).1)
    ∧ runLoop wFailAt1 2 2 ["v"] = runLoop wBase 2 2 ["v"] :=
  claim_C1 wFailAt1 wBase [] ["v"] "u" "boom" (Or.inl rfl)
    (fun j hj => by
      have hne : j ≠ 1 := by omega
      exact ⟨by simp [wFailAt1, wBase, hne], rfl, rfl⟩)

end PyMp3Ytdl
